import Mathlib

/-!
# Verification of the investment-book backend (`src/backend.py`)

A shallow embedding of the persistence-facing logic of
`InvestmentTracker` in `src/backend.py`.  The SQLite database is
modelled as three in-memory tables (lists of rows); SQL REAL columns
are modelled as exact rationals `ℚ`; timestamp columns and the
autoincrement `id` columns are omitted because no verified property
reads them.  Fallible operations return the new database state paired
with the `Bool` the Python method returns.  Network-dependent steps of
the price resolver (yfinance / CoinGecko fetches) are not modelled;
instead the deterministic logic that consumes their results — the
currency-conversion arithmetic and the persistence gate — is embedded
as pure functions of the fetched values, with `Option` encoding an
absent fetch result.
-/

namespace InvestmentBook

/-- A row of the `assets` table (`backend.py` lines 24-34).
`current_price` defaults to `0.0` in the schema. -/
structure Asset where
  symbol : String
  name : String
  asset_type : String
  platform : Option String
  current_price : ℚ
  deriving Repr, DecidableEq

/-- A row of the `transactions` table (`backend.py` lines 37-51). -/
structure Txn where
  asset_symbol : String
  transaction_type : String
  amount : ℚ
  price_per_unit : ℚ
  total_value : ℚ
  fees : ℚ
  platform : Option String
  notes : Option String
  deriving Repr, DecidableEq

/-- A row of the `price_history` table (`backend.py` lines 54-62). -/
structure PricePoint where
  asset_symbol : String
  price : ℚ
  deriving Repr, DecidableEq

/-- The whole database state: the three tables. -/
structure DB where
  assets : List Asset
  transactions : List Txn
  price_history : List PricePoint
  deriving Repr, DecidableEq

/-- Python's `str.upper()` as applied to asset symbols (ASCII
tickers): uppercase every character.  Defined structurally over the
character list so that concrete symbols evaluate inside proofs. -/
def pyUpper (s : String) : String := ⟨s.data.map Char.toUpper⟩

/-- `InvestmentTracker.add_transaction` (`backend.py` lines 88-129).
Validation, in source order: the referenced asset (uppercased) must
exist, then `amount` must be positive, then `price_per_unit` must be
positive; any failure returns `false` before any write.  On success it
inserts one row with `total_value = amount * price_per_unit`. -/
def add_transaction (db : DB) (asset_symbol transaction_type : String)
    (amount price_per_unit : ℚ) (fees : ℚ := 0)
    (platform : Option String := none) (notes : Option String := none) :
    DB × Bool :=
  if ¬ db.assets.any (fun a => a.symbol == pyUpper asset_symbol) then
    (db, false)
  else if amount ≤ 0 then
    (db, false)
  else if price_per_unit ≤ 0 then
    (db, false)
  else
    let total_value := amount * price_per_unit
    ({ db with
        transactions := db.transactions ++
          [{ asset_symbol := pyUpper asset_symbol
             transaction_type := transaction_type
             amount := amount
             price_per_unit := price_per_unit
             total_value := total_value
             fees := fees
             platform := platform
             notes := notes }] },
     true)

/-- Per-transaction contribution to `total_amount` in the
`get_portfolio_summary` SQL query (`backend.py` lines 417-419):
`CASE WHEN 'buy' THEN amount WHEN 'sell' THEN -amount ELSE 0 END`. -/
def amountContrib (t : Txn) : ℚ :=
  if t.transaction_type == "buy" then t.amount
  else if t.transaction_type == "sell" then -t.amount
  else 0

/-- Per-transaction contribution to `total_invested` in the
`get_portfolio_summary` SQL query (`backend.py` lines 420-422):
`CASE WHEN 'buy' THEN total_value + fees WHEN 'sell' THEN
-(total_value - fees) ELSE 0 END`. -/
def investedContrib (t : Txn) : ℚ :=
  if t.transaction_type == "buy" then t.total_value + t.fees
  else if t.transaction_type == "sell" then -(t.total_value - t.fees)
  else 0

/-- One record of the list returned by `get_portfolio_summary`
(`backend.py` lines 409-437).  `profit_loss_percent` is an
`Option ℚ`: `none` models the non-finite IEEE-754 float (`inf`,
`-inf` or `NaN`) that the pandas expression
`profit_loss / total_invested * 100` produces when `total_invested`
is zero — pandas returns such a value instead of raising.  Every
finite result of that expression is an exact rational here. -/
structure Holding where
  symbol : String
  name : String
  asset_type : String
  platform : Option String
  current_price : ℚ
  total_amount : ℚ
  total_invested : ℚ
  current_value : ℚ
  profit_loss : ℚ
  profit_loss_percent : Option ℚ
  deriving Repr, DecidableEq

/-- Rounding to 2 decimal places, modelling pandas `.round(2)` on the
finite results (ties are negligible for the verified properties; no
claim depends on the tie-breaking direction). -/
def round2 (q : ℚ) : ℚ := (round (q * 100) : ℤ) / 100

/-- The holding `get_portfolio_summary` derives for one asset from the
transactions joined to it: the SQL aggregation (lines 414-427) plus
the pandas-derived columns (lines 431-434). -/
def mkHolding (a : Asset) (ts : List Txn) : Holding :=
  let total_amount := (ts.map amountContrib).sum
  let total_invested := (ts.map investedContrib).sum
  let current_value := total_amount * a.current_price
  let profit_loss := current_value - total_invested
  { symbol := a.symbol
    name := a.name
    asset_type := a.asset_type
    platform := a.platform
    current_price := a.current_price
    total_amount := total_amount
    total_invested := total_invested
    current_value := current_value
    profit_loss := profit_loss
    profit_loss_percent :=
      if total_invested = 0 then none
      else some (round2 (profit_loss / total_invested * 100)) }

/-- `InvestmentTracker.get_portfolio_summary` (`backend.py` lines
409-437): assets LEFT JOIN transactions grouped by the (unique) asset
symbol, keeping only groups with `total_amount > 0` (the SQL `HAVING`
clause), then the derived pandas columns. -/
def get_portfolio_summary (db : DB) : List Holding :=
  (db.assets.map (fun a =>
      mkHolding a (db.transactions.filter (fun t => t.asset_symbol == a.symbol)))).filter
    (fun h => 0 < h.total_amount)

/-- Python truthiness-plus-comparison `currency and currency.upper() == c`
used throughout `update_single_asset_price`: `None` (and the falsy
empty string, whose uppercase never equals a currency code) takes the
default branch. -/
def currencyIs (currency : Option String) (c : String) : Bool :=
  match currency with
  | none => false
  | some s => pyUpper s == c

/-- Choice of the synthetic currency-pair ticker in
`update_single_asset_price` (`backend.py` lines 282-293): unknown or
absent currencies default to `EURUSD=X`. -/
def conversion_pair (currency : Option String) : String :=
  if currencyIs currency "USD" then "EURUSD=X"
  else if currencyIs currency "GBP" then "EURGBP=X"
  else if currencyIs currency "CHF" then "EURCHF=X"
  else if currencyIs currency "JPY" then "EURJPY=X"
  else "EURUSD=X"

/-- Conversion arithmetic when the exchange-rate history is non-empty
(`backend.py` lines 300-310): multiply for the EUR-base pairs
`EURGBP=X`/`EURCHF=X`, divide for `EURJPY=X`, divide in the default
(`EURUSD=X`) case. -/
def convert_with_rate (currency : Option String)
    (price_original exchange_rate : ℚ) : ℚ :=
  let pair := conversion_pair currency
  if pair == "EURGBP=X" || pair == "EURCHF=X" then
    price_original * exchange_rate
  else if pair == "EURJPY=X" then
    price_original / exchange_rate
  else
    price_original / exchange_rate

/-- Fallback conversion when the exchange-rate history is empty
(`backend.py` lines 311-319): fixed approximate rates, USD ↦ ×0.92,
GBP ↦ ×1.17, anything else ↦ ×0.92. -/
def fallback_convert (currency : Option String) (price_original : ℚ) : ℚ :=
  if currencyIs currency "USD" then price_original * (92 / 100)
  else if currencyIs currency "GBP" then price_original * (117 / 100)
  else price_original * (92 / 100)

/-- The non-crypto price-conversion step of `update_single_asset_price`
(`backend.py` lines 273-319), as a function of the instrument's native
currency, the raw close price, and the fetched exchange rate (`none` =
the rate history came back empty).  An EUR-denominated price is used
unchanged; otherwise the live-rate or the fallback branch applies. -/
def convert_to_eur (currency : Option String) (price_original : ℚ)
    (rate_data : Option ℚ) : ℚ :=
  if currencyIs currency "EUR" then price_original
  else
    match rate_data with
    | some exchange_rate => convert_with_rate currency price_original exchange_rate
    | none => fallback_convert currency price_original

/-- The persistence gate of `update_single_asset_price` (`backend.py`
lines 361-384): given the resolved price (`none` = resolution failed),
write only when it is strictly positive — update the matching asset's
`current_price`, append one `price_history` row, return `True`;
otherwise leave the database untouched and return `False`. -/
def persist_price (db : DB) (symbol : String) (price : Option ℚ) :
    DB × Bool :=
  match price with
  | some p =>
    if 0 < p then
      ({ db with
          assets := db.assets.map (fun a =>
            if a.symbol == symbol then { a with current_price := p } else a)
          price_history := db.price_history ++ [{ asset_symbol := symbol, price := p }] },
       true)
    else (db, false)
  | none => (db, false)

/-- `InvestmentTracker.update_asset_values_manually` (`backend.py`
lines 386-407): unconditionally `UPDATE assets SET current_price`
for the uppercased symbol, unconditionally insert one `price_history`
row, return `True`.  No validation of the price or existence check of
the symbol is performed. -/
def update_asset_values_manually (db : DB) (symbol : String) (price : ℚ) :
    DB × Bool :=
  ({ db with
      assets := db.assets.map (fun a =>
        if a.symbol == pyUpper symbol then { a with current_price := price } else a)
      price_history := db.price_history ++
        [{ asset_symbol := pyUpper symbol, price := price }] },
   true)

/-- `InvestmentTracker.delete_asset` (`backend.py` lines 492-508):
delete the transactions, price-history rows and the asset row whose
symbol equals the uppercased argument, return `True`. -/
def delete_asset (db : DB) (symbol : String) : DB × Bool :=
  ({ assets := db.assets.filter (fun a => !(a.symbol == pyUpper symbol))
     transactions := db.transactions.filter (fun t => !(t.asset_symbol == pyUpper symbol))
     price_history := db.price_history.filter (fun p => !(p.asset_symbol == pyUpper symbol)) },
   true)

/-! ## Concrete scenario databases (used by witnesses) -/

/-- The `AAPL` stock asset of the spec's first scenario, with the
schema-default `current_price = 0.0`. -/
def aaplAsset : Asset :=
  { symbol := "AAPL", name := "Apple Inc.", asset_type := "stock",
    platform := none, current_price := 0 }

/-- A database holding only the `AAPL` asset and no transactions. -/
def dbAapl : DB := { assets := [aaplAsset], transactions := [], price_history := [] }

/-- Scenario of the spec: buy 10 units of `AAPL` at 150.0 with 5.0
fees. -/
def dbBuy10 : DB := (add_transaction dbAapl "AAPL" "buy" 10 150 5).1

/-- Scenario with zero net invested capital: buy 2 units at 10, then
sell 1 unit at 20, no fees, so `total_invested = 20 - 20 = 0` while
`total_amount = 1 > 0`. -/
def dbZeroInvested : DB :=
  (add_transaction (add_transaction dbAapl "AAPL" "buy" 2 10).1 "AAPL" "sell" 1 20).1

/-! ## Helper lemmas -/

theorem pyUpper_AAPL : pyUpper "AAPL" = "AAPL" := by decide

/-- The holding the summary derives from `dbBuy10`: 10 units held,
1505 invested; the schema-default price 0 makes the current value 0
and the profit/loss −1505 (−100 %). -/
def holdingBuy10 : Holding :=
  Holding.mk "AAPL" "Apple Inc." "stock" none 0 10 1505 0 (-1505) (some (-100))

theorem dbBuy10_eq : dbBuy10 =
    { assets := [aaplAsset],
      transactions := [Txn.mk "AAPL" "buy" 10 150 1500 5 none none],
      price_history := [] } := by
  norm_num [dbBuy10, add_transaction, dbAapl, aaplAsset, pyUpper_AAPL]

theorem summary_dbBuy10 : get_portfolio_summary dbBuy10 = [holdingBuy10] := by
  rw [dbBuy10_eq]
  norm_num [get_portfolio_summary, mkHolding, amountContrib, investedContrib, aaplAsset,
    holdingBuy10, round2, round_eq]

/-- The holding the summary derives from `dbZeroInvested`: 1 unit
held, 0 invested, and the non-finite percent column. -/
def holdingZero : Holding :=
  Holding.mk "AAPL" "Apple Inc." "stock" none 0 1 0 0 0 none

theorem dbZero_eq : dbZeroInvested =
    { assets := [aaplAsset],
      transactions := [Txn.mk "AAPL" "buy" 2 10 20 0 none none,
                       Txn.mk "AAPL" "sell" 1 20 20 0 none none],
      price_history := [] } := by
  norm_num [dbZeroInvested, add_transaction, dbAapl, aaplAsset, pyUpper_AAPL]

theorem summary_dbZero : get_portfolio_summary dbZeroInvested = [holdingZero] := by
  rw [dbZero_eq]
  simp +decide only [get_portfolio_summary, mkHolding, amountContrib, investedContrib,
    aaplAsset, holdingZero, List.filter, List.map]
  norm_num [holdingZero]

/-- The SQL `CASE` aggregation for `total_amount` equals the
difference of the buy-amount and sell-amount sums. -/
theorem sum_amountContrib (ts : List Txn) :
    (ts.map amountContrib).sum =
      ((ts.filter (fun t => t.transaction_type == "buy")).map Txn.amount).sum -
      ((ts.filter (fun t => t.transaction_type == "sell")).map Txn.amount).sum := by
  induction ts with
  | nil => simp
  | cons t ts ih =>
    by_cases hb : t.transaction_type = "buy"
    · simp [amountContrib, hb, ih]; ring
    · by_cases hs : t.transaction_type = "sell"
      · simp [amountContrib, hb, hs, ih]; ring
      · simp [amountContrib, hb, hs, ih]

/-- The SQL `CASE` aggregation for `total_invested` equals the
difference of the buy `total_value + fees` and sell
`total_value - fees` sums. -/
theorem sum_investedContrib (ts : List Txn) :
    (ts.map investedContrib).sum =
      ((ts.filter (fun t => t.transaction_type == "buy")).map
          (fun t => t.total_value + t.fees)).sum -
      ((ts.filter (fun t => t.transaction_type == "sell")).map
          (fun t => t.total_value - t.fees)).sum := by
  induction ts with
  | nil => simp
  | cons t ts ih =>
    by_cases hb : t.transaction_type = "buy"
    · simp [investedContrib, hb, ih]; ring
    · by_cases hs : t.transaction_type = "sell"
      · simp [investedContrib, hb, hs, ih]; ring
      · simp [investedContrib, hb, hs, ih]

/-- Every holding of the summary is the aggregation of some stored
asset over the transactions joined to its symbol. -/
theorem mem_summary (db : DB) (h : Holding) (hmem : h ∈ get_portfolio_summary db) :
    ∃ a ∈ db.assets,
      h = mkHolding a (db.transactions.filter (fun t => t.asset_symbol == a.symbol)) := by
  unfold get_portfolio_summary at hmem
  rw [List.mem_filter] at hmem
  obtain ⟨a, ha, rfl⟩ := List.mem_map.mp hmem.1
  exact ⟨a, ha, rfl⟩

/-! ## Claim theorems -/

/-- **C1.** For every holding of `get_portfolio_summary`,
`total_amount` is the sum of buy amounts minus the sum of sell
amounts, and `total_invested` is the sum over buys of
`total_value + fees` minus the sum over sells of `total_value - fees`,
over the transactions of that asset — dividend/fee transactions
contribute to neither; and the concrete scenario of one buy of 10
units at 150.0 with fees 5.0 yields `total_amount = 10` and
`total_invested = 1505`. -/
theorem C1_portfolio_totals :
    (∀ (db : DB) (h : Holding), h ∈ get_portfolio_summary db →
      (h.total_amount =
        (((db.transactions.filter (fun t => t.asset_symbol == h.symbol)).filter
            (fun t => t.transaction_type == "buy")).map Txn.amount).sum -
        (((db.transactions.filter (fun t => t.asset_symbol == h.symbol)).filter
            (fun t => t.transaction_type == "sell")).map Txn.amount).sum ∧
       h.total_invested =
        (((db.transactions.filter (fun t => t.asset_symbol == h.symbol)).filter
            (fun t => t.transaction_type == "buy")).map
              (fun t => t.total_value + t.fees)).sum -
        (((db.transactions.filter (fun t => t.asset_symbol == h.symbol)).filter
            (fun t => t.transaction_type == "sell")).map
              (fun t => t.total_value - t.fees)).sum)) ∧
    (get_portfolio_summary dbBuy10).map (fun h => (h.total_amount, h.total_invested)) =
      [(10, 1505)] := by
  constructor
  · intro db h hmem
    obtain ⟨a, _, rfl⟩ := mem_summary db h hmem
    constructor
    · simpa [mkHolding] using sum_amountContrib
        (db.transactions.filter (fun t => t.asset_symbol == a.symbol))
    · simpa [mkHolding] using sum_investedContrib
        (db.transactions.filter (fun t => t.asset_symbol == a.symbol))
  · rw [summary_dbBuy10]
    simp [holdingBuy10]

/-- **C1 witness.** The first component of `C1_portfolio_totals`
instantiated at the concrete buy-10-at-150-with-5-fees database and
its unique holding. -/
theorem C1_portfolio_totals_witness :
    holdingBuy10 ∈ get_portfolio_summary dbBuy10 ∧
    holdingBuy10.total_amount =
      (((dbBuy10.transactions.filter
            (fun t => t.asset_symbol == holdingBuy10.symbol)).filter
          (fun t => t.transaction_type == "buy")).map Txn.amount).sum -
      (((dbBuy10.transactions.filter
            (fun t => t.asset_symbol == holdingBuy10.symbol)).filter
          (fun t => t.transaction_type == "sell")).map Txn.amount).sum :=
  have hmem : holdingBuy10 ∈ get_portfolio_summary dbBuy10 := by
    rw [summary_dbBuy10]; exact List.mem_singleton.mpr rfl
  ⟨hmem, (C1_portfolio_totals.1 dbBuy10 holdingBuy10 hmem).1⟩

/-- **C2 counterexample.** In the database built by a buy of 2 units
at 10 followed by a sell of 1 unit at 20 with no fees, the unique
holding has `total_amount = 1 > 0` and `total_invested = 0`, and its
`profit_loss_percent` is the non-finite pandas value (modelled
`none`), not the finite value 0: the code does not special-case the
zero denominator. -/
theorem C2_percent_not_zero_counterexample :
    (get_portfolio_summary dbZeroInvested).map
        (fun h => (h.total_amount, h.total_invested, h.profit_loss_percent)) =
      [(1, 0, none)] ∧ (none : Option ℚ) ≠ some 0 := by
  rw [summary_dbZero]
  exact ⟨by simp [holdingZero], by simp⟩

/-- **C2 (amended).** For every holding of the summary whose
`total_invested` is 0, the pandas expression
`profit_loss / total_invested * 100` produces a non-finite float
(`NaN` or `±inf`, modelled `none`) rather than the number 0; no
exception is raised — the holding is still returned. -/
theorem C2_zero_invested_nonfinite (db : DB) (h : Holding)
    (hmem : h ∈ get_portfolio_summary db) (hz : h.total_invested = 0) :
    h.profit_loss_percent = none := by
  obtain ⟨a, _, rfl⟩ := mem_summary db h hmem
  simp only [mkHolding] at hz ⊢
  rw [if_pos hz]

/-- **C2 witness.** The amended statement instantiated at the concrete
buy-2-at-10 / sell-1-at-20 database and its unique holding. -/
theorem C2_zero_invested_nonfinite_witness :
    holdingZero.profit_loss_percent = none :=
  C2_zero_invested_nonfinite dbZeroInvested holdingZero
    (by rw [summary_dbZero]; exact List.mem_singleton.mpr rfl)
    (by simp [holdingZero])

/-- **C3.** Any call to `add_transaction` whose referenced (uppercased)
asset symbol is absent from the assets table, or whose amount is ≤ 0,
or whose price per unit is ≤ 0, returns `False` and leaves the
database — in particular the transactions table — unchanged. -/
theorem C3_add_transaction_rejects (db : DB) (sym ty : String)
    (amount price fees : ℚ) (platform notes : Option String)
    (hrej : (¬ db.assets.any (fun a => a.symbol == pyUpper sym)) ∨
      amount ≤ 0 ∨ price ≤ 0) :
    add_transaction db sym ty amount price fees platform notes = (db, false) := by
  unfold add_transaction
  rcases hrej with h | h | h
  · rw [if_pos h]
  · by_cases hex : db.assets.any (fun a => a.symbol == pyUpper sym)
    · rw [if_neg (by simpa using hex), if_pos h]
    · rw [if_pos hex]
  · by_cases hex : db.assets.any (fun a => a.symbol == pyUpper sym)
    · by_cases ha : amount ≤ 0
      · rw [if_neg (by simpa using hex), if_pos ha]
      · rw [if_neg (by simpa using hex), if_neg ha, if_pos h]
    · rw [if_pos hex]

/-- **C3 witness.** Concretely, a transaction on the unknown symbol
`MSFT` against the `AAPL`-only database is rejected without a write,
and so are a zero-amount and a zero-price transaction on `AAPL`. -/
theorem C3_add_transaction_rejects_witness :
    add_transaction dbAapl "MSFT" "buy" 1 1 0 none none = (dbAapl, false) ∧
    add_transaction dbAapl "AAPL" "buy" 0 1 0 none none = (dbAapl, false) ∧
    add_transaction dbAapl "AAPL" "buy" 1 0 0 none none = (dbAapl, false) :=
  ⟨C3_add_transaction_rejects dbAapl "MSFT" "buy" 1 1 0 none none
      (Or.inl (by decide)),
   C3_add_transaction_rejects dbAapl "AAPL" "buy" 0 1 0 none none
      (Or.inr (Or.inl (by norm_num))),
   C3_add_transaction_rejects dbAapl "AAPL" "buy" 1 0 0 none none
      (Or.inr (Or.inr (by norm_num)))⟩

/-- **C4.** Every holding in the portfolio summary has
`total_amount > 0`: the SQL `HAVING total_amount > 0` clause filters
out any asset with zero transactions or a non-positive net amount, for
any database state. -/
theorem C4_holdings_positive (db : DB) (h : Holding)
    (hmem : h ∈ get_portfolio_summary db) : 0 < h.total_amount := by
  unfold get_portfolio_summary at hmem
  rw [List.mem_filter] at hmem
  exact of_decide_eq_true hmem.2

/-- **C4 witness.** The concrete buy-10 scenario's holding is in the
summary and has a positive amount. -/
theorem C4_holdings_positive_witness : 0 < holdingBuy10.total_amount :=
  C4_holdings_positive dbBuy10 holdingBuy10
    (by rw [summary_dbBuy10]; exact List.mem_singleton.mpr rfl)

/-- If the (Python-truthy) currency equals one code, it does not equal
a different one. -/
theorem currencyIs_ne (c : Option String) (x y : String)
    (hx : currencyIs c x = true) (hxy : x ≠ y) : currencyIs c y = false := by
  cases c with
  | none => simp [currencyIs] at hx
  | some s =>
    simp only [currencyIs, beq_iff_eq] at hx ⊢
    simp [hx, hxy]

/-- **C5.** When the exchange-rate fetch succeeds
(`rate_data = some r`), the non-crypto conversion is: USD or an
unrecognized/absent currency → raw ÷ rate (via `EURUSD=X`); GBP or
CHF → raw × rate (EUR-base pairs); JPY → raw ÷ rate; EUR → raw
unchanged (no conversion). -/
theorem C5_currency_conversion (c : Option String) (p r : ℚ) :
    (currencyIs c "USD" = true → convert_to_eur c p (some r) = p / r) ∧
    ((currencyIs c "USD" = false ∧ currencyIs c "GBP" = false ∧
      currencyIs c "CHF" = false ∧ currencyIs c "JPY" = false ∧
      currencyIs c "EUR" = false) → convert_to_eur c p (some r) = p / r) ∧
    ((currencyIs c "GBP" = true ∨ currencyIs c "CHF" = true) →
      convert_to_eur c p (some r) = p * r) ∧
    (currencyIs c "JPY" = true → convert_to_eur c p (some r) = p / r) ∧
    (currencyIs c "EUR" = true → convert_to_eur c p (some r) = p) := by
  refine ⟨?_, ?_, ?_, ?_, ?_⟩
  · intro h
    have hE := currencyIs_ne c "USD" "EUR" h (by decide)
    simp +decide [convert_to_eur, convert_with_rate, conversion_pair, h, hE]
  · rintro ⟨hU, hG, hC, hJ, hE⟩
    simp +decide [convert_to_eur, convert_with_rate, conversion_pair, hU, hG, hC, hJ, hE]
  · rintro (h | h)
    · have hE := currencyIs_ne c "GBP" "EUR" h (by decide)
      have hU := currencyIs_ne c "GBP" "USD" h (by decide)
      simp +decide [convert_to_eur, convert_with_rate, conversion_pair, h, hU, hE]
    · have hE := currencyIs_ne c "CHF" "EUR" h (by decide)
      have hU := currencyIs_ne c "CHF" "USD" h (by decide)
      have hG := currencyIs_ne c "CHF" "GBP" h (by decide)
      simp +decide [convert_to_eur, convert_with_rate, conversion_pair, h, hU, hG, hE]
  · intro h
    have hE := currencyIs_ne c "JPY" "EUR" h (by decide)
    have hU := currencyIs_ne c "JPY" "USD" h (by decide)
    have hG := currencyIs_ne c "JPY" "GBP" h (by decide)
    have hC := currencyIs_ne c "JPY" "CHF" h (by decide)
    simp +decide [convert_to_eur, convert_with_rate, conversion_pair, h, hU, hG, hC, hE]
  · intro h
    simp [convert_to_eur, h]

/-- **C5 witness.** A USD price of 108 at EURUSD rate 1.08 = 27/25
converts to 100 EUR. -/
theorem C5_currency_conversion_witness :
    convert_to_eur (some "USD") 108 (some (27 / 25)) = 100 := by
  rw [(C5_currency_conversion (some "USD") 108 (27 / 25)).1 (by decide)]
  norm_num

/-- **C6.** When the exchange-rate fetch returns no data
(`rate_data = none`) for a non-EUR currency, resolution still
produces a price via the fixed approximate rates: ×0.92 for USD,
×1.17 for GBP, ×0.92 for every other currency. -/
theorem C6_fallback_rates (c : Option String) (p : ℚ)
    (hE : currencyIs c "EUR" = false) :
    (currencyIs c "USD" = true → convert_to_eur c p none = p * (92 / 100)) ∧
    (currencyIs c "GBP" = true → convert_to_eur c p none = p * (117 / 100)) ∧
    (currencyIs c "USD" = false → currencyIs c "GBP" = false →
      convert_to_eur c p none = p * (92 / 100)) := by
  refine ⟨?_, ?_, ?_⟩
  · intro h
    simp [convert_to_eur, fallback_convert, h, hE]
  · intro h
    have hU := currencyIs_ne c "GBP" "USD" h (by decide)
    simp [convert_to_eur, fallback_convert, h, hU, hE]
  · intro hU hG
    simp [convert_to_eur, fallback_convert, hU, hG, hE]

/-- **C6 witness.** Concrete fallback conversions: USD 50 → 46,
GBP 100 → 117, JPY 100 → 92 (the catch-all rate). -/
theorem C6_fallback_rates_witness :
    convert_to_eur (some "USD") 50 none = 46 ∧
    convert_to_eur (some "GBP") 100 none = 117 ∧
    convert_to_eur (some "JPY") 100 none = 92 := by
  refine ⟨?_, ?_, ?_⟩
  · rw [(C6_fallback_rates (some "USD") 50 (by decide)).1 (by decide)]; norm_num
  · rw [(C6_fallback_rates (some "GBP") 100 (by decide)).2.1 (by decide)]; norm_num
  · rw [(C6_fallback_rates (some "JPY") 100 (by decide)).2.2 (by decide) (by decide)]
    norm_num

/-- **C7.** `update_single_asset_price` persists if and only if the
resolved price is strictly positive: it then updates the matching
asset's `current_price`, appends exactly one `price_history` row and
returns `True`; on a failed resolution (`none`) or a non-positive
price it returns `False` with the database unchanged. -/
theorem C7_persist_gate (db : DB) (sym : String) (price : Option ℚ) :
    ((persist_price db sym price).2 = true ↔ ∃ p : ℚ, price = some p ∧ 0 < p) ∧
    (∀ p : ℚ, price = some p → 0 < p →
      (persist_price db sym price).1.assets =
        db.assets.map (fun a =>
          if a.symbol == sym then { a with current_price := p } else a) ∧
      (persist_price db sym price).1.price_history =
        db.price_history ++ [PricePoint.mk sym p] ∧
      (persist_price db sym price).1.transactions = db.transactions) ∧
    ((persist_price db sym price).2 = false → (persist_price db sym price).1 = db) := by
  refine ⟨?_, ?_, ?_⟩
  · cases price with
    | none => simp [persist_price]
    | some p =>
      by_cases hp : 0 < p
      · simp [persist_price, hp]
      · simp [persist_price, hp]
  · intro p hp hpos
    subst hp
    simp [persist_price, hpos]
  · cases price with
    | none => intro _; simp [persist_price]
    | some p =>
      by_cases hp : 0 < p
      · simp [persist_price, hp]
      · intro _; simp [persist_price, hp]

/-- **C7 witness.** Persisting the resolved price 5 for `AAPL`
returns `True` and appends the one history row; a resolved price −1
leaves the database unchanged. -/
theorem C7_persist_gate_witness :
    (persist_price dbAapl "AAPL" (some 5)).2 = true ∧
    (persist_price dbAapl "AAPL" (some 5)).1.price_history =
      dbAapl.price_history ++ [PricePoint.mk "AAPL" 5] ∧
    ((persist_price dbAapl "AAPL" (some (-1))).2 = false →
      (persist_price dbAapl "AAPL" (some (-1))).1 = dbAapl) :=
  have h := C7_persist_gate dbAapl "AAPL" (some 5)
  ⟨h.1.mpr ⟨5, rfl, by norm_num⟩, (h.2.1 5 rfl (by norm_num)).2.1,
    (C7_persist_gate dbAapl "AAPL" (some (-1))).2.2⟩

/-- **C8.** After `delete_asset` succeeds (it returns `True`), no row
of the assets, transactions or price-history table references the
deleted (uppercased) symbol, for any prior database state — so the
add-then-delete round trip leaves no orphan rows. -/
theorem C8_delete_cascades (db : DB) (sym : String) :
    (delete_asset db sym).2 = true ∧
    ((delete_asset db sym).1.assets.filter
        (fun a => a.symbol == pyUpper sym)) = [] ∧
    ((delete_asset db sym).1.transactions.filter
        (fun t => t.asset_symbol == pyUpper sym)) = [] ∧
    ((delete_asset db sym).1.price_history.filter
        (fun p => p.asset_symbol == pyUpper sym)) = [] := by
  refine ⟨rfl, ?_, ?_, ?_⟩ <;>
    simp [delete_asset, List.filter_filter]

/-- **C9.** For an existing asset, a manual price update sets that
asset's `current_price`, appends exactly one `price_history` row,
and leaves the transactions table and every other asset's row
unchanged. -/
theorem C9_manual_update (db : DB) (sym : String) (price : ℚ) (a : Asset)
    (ha : a ∈ db.assets) (hsym : a.symbol = pyUpper sym) :
    ({ a with current_price := price }) ∈
        (update_asset_values_manually db sym price).1.assets ∧
    (update_asset_values_manually db sym price).1.transactions = db.transactions ∧
    (update_asset_values_manually db sym price).1.price_history =
      db.price_history ++ [PricePoint.mk (pyUpper sym) price] ∧
    (∀ b ∈ db.assets, b.symbol ≠ pyUpper sym →
      b ∈ (update_asset_values_manually db sym price).1.assets) ∧
    (update_asset_values_manually db sym price).1.assets.length = db.assets.length := by
  refine ⟨?_, rfl, rfl, ?_, by simp [update_asset_values_manually]⟩
  · have heq : ({ a with current_price := price }) =
        (fun b => if b.symbol == pyUpper sym then
          { b with current_price := price } else b) a := by
      simp [hsym]
    rw [heq]
    exact List.mem_map_of_mem _ ha
  · intro b hb hbne
    have heq : (fun c => if c.symbol == pyUpper sym then
        { c with current_price := price } else c) b = b := by
      simp [hbne]
    exact heq ▸ List.mem_map_of_mem _ hb

/-- **C9 witness.** Manually setting `AAPL` to 199 updates its price,
appends the one history row and does not touch transactions. -/
theorem C9_manual_update_witness :
    ({ aaplAsset with current_price := 199 }) ∈
        (update_asset_values_manually dbAapl "AAPL" 199).1.assets ∧
    (update_asset_values_manually dbAapl "AAPL" 199).1.transactions =
      dbAapl.transactions ∧
    (update_asset_values_manually dbAapl "AAPL" 199).1.price_history =
      dbAapl.price_history ++ [PricePoint.mk (pyUpper "AAPL") 199] :=
  have h := C9_manual_update dbAapl "AAPL" 199 aaplAsset (by simp [dbAapl]) (by decide)
  ⟨h.1, h.2.1, h.2.2.1⟩

/-- **C10.** `update_asset_values_manually` validates nothing: for
every symbol (even one with no asset row) and every price (even zero
or negative) it returns `True` and appends a `price_history` row for
the uppercased symbol; when no asset matches, the assets table is
unchanged, so the appended row is an orphan. -/
theorem C10_no_validation (db : DB) (sym : String) (price : ℚ) :
    (update_asset_values_manually db sym price).2 = true ∧
    (update_asset_values_manually db sym price).1.price_history =
      db.price_history ++ [PricePoint.mk (pyUpper sym) price] ∧
    (db.assets.all (fun a => !(a.symbol == pyUpper sym)) = true →
      (update_asset_values_manually db sym price).1.assets = db.assets) := by
  refine ⟨rfl, rfl, ?_⟩
  intro hnone
  simp only [update_asset_values_manually]
  conv_rhs => rw [← List.map_id db.assets]
  apply List.map_congr_left
  intro b hb
  have hbne := List.all_eq_true.mp hnone b hb
  simp only [Bool.not_eq_true'] at hbne
  simp [hbne]

/-- A database with no rows at all. -/
def dbEmpty : DB := { assets := [], transactions := [], price_history := [] }

/-- **C10 witness.** A manual update of the absent symbol `GHOST`
with the negative price −3 still returns `True` and appends an orphan
history row, leaving the (empty) assets table unchanged. -/
theorem C10_no_validation_witness :
    (update_asset_values_manually dbEmpty "GHOST" (-3)).2 = true ∧
    (update_asset_values_manually dbEmpty "GHOST" (-3)).1.price_history =
      dbEmpty.price_history ++ [PricePoint.mk (pyUpper "GHOST") (-3)] ∧
    (update_asset_values_manually dbEmpty "GHOST" (-3)).1.assets = dbEmpty.assets :=
  have h := C10_no_validation dbEmpty "GHOST" (-3)
  ⟨h.1, h.2.1, h.2.2 (by decide)⟩

end InvestmentBook
